import Mathlib

/-!
Verification of the translation app: a shallow embedding of the
Translation Client (services/geminiService.ts, `translateText`) and the
Interaction Controller state handlers of App.tsx, with theorems checking
the specification's testable properties against them.
-/

namespace TranslatorApp

/-- Whitespace predicate of JavaScript String.prototype.trim, restricted to
the ASCII whitespace characters that can occur in the app's strings. -/
def isSpace (c : Char) : Bool :=
  c = ' ' || c = '\t' || c = '\n' || c = '\x0b' || c = '\x0c' || c = '\r'

/-- Embedding of JavaScript text.trim(): drop leading and trailing whitespace. -/
def jsTrim (s : String) : String :=
  ⟨((s.data.dropWhile isSpace).reverse.dropWhile isSpace).reverse⟩

/-- The Language union type: 'arabic' | 'english'. -/
inductive Language where
  | arabic
  | english
  deriving DecidableEq, Repr

/-- The string value a Language denotes (the TS type is a string union, and the
prompt template interpolates the value directly). -/
def langName : Language → String
  | .arabic => "arabic"
  | .english => "english"

/-- The InputMode union type: 'text' | 'file'. -/
inductive InputMode where
  | text
  | file
  deriving DecidableEq, Repr

/-- Outcome of one call to the external generation service, as observed by the
try block of translateText: a response whose .text field may be present or
absent, or a thrown error carrying some underlying cause. -/
inductive ServiceResponse where
  | ok (text : Option String)
  | err (cause : String)

/-- The single error message translateText throws on any failure. -/
def genericFailureMsg : String :=
  "Failed to translate text. Please check the API key and try again."

/-- The prompt template literal of translateText, with the language names and
the source text interpolated. -/
def buildPrompt (text sourceLang targetLang : String) : String :=
  "\n    You are an expert translator. Translate the following text from " ++
    sourceLang ++ " to " ++ targetLang ++
    ".\n    Do not add any commentary, preamble, or explanation. Only return the translated text.\n    Preserve the original formatting (like line breaks) as much as possible.\n\n    Text to translate:\n    ---\n    " ++
    text ++ "\n    ---\n  " ++ ""

/-- What one call of translateText produces: the value returned to the caller
(or the thrown error message), and whether the generation service was invoked. -/
structure TranslateOutcome where
  result : Except String String
  calledService : Bool

/-- Embedding of translateText: short-circuit on whitespace-only input, else
send the built prompt to the service; on a present response text return it
trimmed, on a missing response text or a thrown service error throw the one
generic failure message. The service is passed as a function parameter. -/
def translateText (service : String → ServiceResponse) (text : String)
    (sourceLang targetLang : Language) : TranslateOutcome :=
  if jsTrim text = "" then
    ⟨Except.ok "", false⟩
  else
    match service (buildPrompt text (langName sourceLang) (langName targetLang)) with
    | .ok (some t) => ⟨Except.ok (jsTrim t), true⟩
    | .ok none => ⟨Except.error genericFailureMsg, true⟩
    | .err _ => ⟨Except.error genericFailureMsg, true⟩

/-- The UI state owned by the App component: the nine useState fields. -/
structure AppState where
  sourceLang : Language
  targetLang : Language
  inputMode : InputMode
  inputText : String
  translatedText : String
  isLoading : Bool
  error : Option String
  fileName : Option String
  copySuccess : Bool
  deriving DecidableEq, Repr

/-- The state updates handleTranslate performs before awaiting the client:
setIsLoading(true); setError(null); setTranslatedText(''). -/
def translateStart (s : AppState) : AppState :=
  { s with isLoading := true, error := none, translatedText := "" }

/-- The state updates handleTranslate performs when the awaited call resolves:
on success set translatedText, on failure set error to the thrown message;
the finally block sets isLoading to false in both cases. -/
def translateResolve (s : AppState) : Except String String → AppState
  | .ok t => { s with translatedText := t, isLoading := false }
  | .error msg => { s with error := some msg, isLoading := false }

/-- Embedding of handleTranslate end to end: the whitespace guard only clears
translatedText; otherwise the start updates run, the client is called, and the
resolution updates run. -/
def handleTranslate (service : String → ServiceResponse) (s : AppState) : AppState :=
  if jsTrim s.inputText = "" then
    { s with translatedText := "" }
  else
    translateResolve (translateStart s)
      (translateText service s.inputText s.sourceLang s.targetLang).result

/-- Embedding of handleSwapLanguages: all four setters read the values captured
before any update, so the two pairs swap simultaneously. -/
def handleSwapLanguages (s : AppState) : AppState :=
  { s with
      sourceLang := s.targetLang
      targetLang := s.sourceLang
      inputText := s.translatedText
      translatedText := s.inputText }

/-- The fixed delay of the copy-feedback revert timer. -/
def copyTimeoutMs : Nat := 2000

/-- Everything handleCopy does: the possibly-updated state, the text written to
the clipboard if any, and the delay of the scheduled revert timeout if any. -/
structure CopyOutcome where
  state : AppState
  clipboardWrite : Option String
  scheduledRevertMs : Option Nat

/-- Embedding of handleCopy: with empty translatedText nothing happens; else
the text is written to the clipboard and, the write having succeeded,
copySuccess is set and a revert is scheduled after copyTimeoutMs. -/
def handleCopy (s : AppState) : CopyOutcome :=
  if s.translatedText = "" then
    ⟨s, none, none⟩
  else
    ⟨{ s with copySuccess := true }, some s.translatedText, some copyTimeoutMs⟩

/-- The callback the copy-feedback timer runs when it fires. -/
def copyRevert (s : AppState) : AppState :=
  { s with copySuccess := false }

/-- The metadata of an uploaded file the validation reads. -/
structure FileMeta where
  name : String
  size : Nat
  mimeType : String
  deriving DecidableEq, Repr

/-- The size ceiling of handleFileChange: 100 * 1024 * 1024 bytes. -/
def maxFileSizeBytes : Nat := 100 * 1024 * 1024

/-- Error message for an oversized file. -/
def sizeErrorMsg : String := "File size exceeds 100MB limit."

/-- Error message for a file that is not a PDF. -/
def typeErrorMsg : String := "Only PDF files are supported."

/-- The MIME type handleFileChange accepts. -/
def pdfMime : String := "application/pdf"

/-- What the synchronous part of handleFileChange produces: the updated state,
and whether the FileReader read (leading to extraction) was started. -/
structure FileChangeOutcome where
  state : AppState
  readStarted : Bool

/-- Embedding of the synchronous part of handleFileChange with a file present:
clear error, fileName, inputText and translatedText, then validate the size and
then the MIME type, aborting with the matching error; on acceptance record the
file name, set isLoading and start the read. -/
def handleFileChange (s : AppState) (f : FileMeta) : FileChangeOutcome :=
  let s0 : AppState :=
    { s with error := none, fileName := none, inputText := "", translatedText := "" }
  if maxFileSizeBytes < f.size then
    ⟨{ s0 with error := some sizeErrorMsg }, false⟩
  else if f.mimeType ≠ pdfMime then
    ⟨{ s0 with error := some typeErrorMsg }, false⟩
  else
    ⟨{ s0 with fileName := some f.name, isLoading := true }, true⟩

/-- Error message when PDF text extraction throws. -/
def extractErrorMsg : String :=
  "Failed to extract text from PDF. The file might be corrupted, password-protected, or contain only images."

/-- The page concatenation loop of the reader.onload callback: fullText starts
empty and each per-page text is appended followed by a blank-line separator. -/
def concatPages (pages : List String) : String :=
  pages.foldl (fun acc p => acc ++ p ++ "\n\n") ""

/-- How the asynchronous extraction resolves, as the onload callback sees it:
the per-page texts in page order, or a thrown extraction error. -/
inductive ExtractionEvent where
  | pagesExtracted (pages : List String)
  | extractionFailed

/-- Embedding of the reader.onload callback after the document is open: on
success set inputText to the trimmed concatenation and switch inputMode to
text; on an extraction error set the error message; isLoading is cleared in
the finally block either way. -/
def handleExtraction (s : AppState) : ExtractionEvent → AppState
  | .pagesExtracted pages =>
      { s with
          inputText := jsTrim (concatPages pages)
          inputMode := .text
          isLoading := false }
  | .extractionFailed =>
      { s with error := some extractErrorMsg, isLoading := false }

/-- Embedding of the textarea onChange handler: only inputText changes. -/
def handleEditText (s : AppState) (t : String) : AppState :=
  { s with inputText := t }

/-- Embedding of the mode-tab onClick handlers: only inputMode changes. -/
def handleSetInputMode (s : AppState) (m : InputMode) : AppState :=
  { s with inputMode := m }

/-- Any controller action other than the copy action and its revert timer. -/
inductive OtherAction where
  | translateReq (service : String → ServiceResponse)
  | swapLanguages
  | editText (t : String)
  | switchMode (m : InputMode)
  | fileSelected (f : FileMeta)
  | extraction (e : ExtractionEvent)

/-- Run one non-copy action on the state. -/
def applyOther (s : AppState) : OtherAction → AppState
  | .translateReq svc => handleTranslate svc s
  | .swapLanguages => handleSwapLanguages s
  | .editText t => handleEditText s t
  | .switchMode m => handleSetInputMode s m
  | .fileSelected f => (handleFileChange s f).state
  | .extraction e => handleExtraction s e

/-- Run a sequence of non-copy actions on the state, in order. -/
def applyOthers (s : AppState) (acts : List OtherAction) : AppState :=
  acts.foldl applyOther s

/- Concrete inputs used by the witnesses. -/

/-- A whitespace-only input string. -/
def wsInput : String := " \n\t "

/-- A plain non-whitespace input string. -/
def sampleText : String := "hello"

/-- A raw service response with leading and trailing newlines. -/
def rawWithNewlines : String := "\nHello\n"

/-- The cause string carried by the failing sample service. -/
def constCause : String := "socket closed"

/-- A service whose call always throws a network error. -/
def svcNetworkError : String → ServiceResponse := fun _ => .err constCause

/-- A service whose response always lacks the text field. -/
def svcMalformed : String → ServiceResponse := fun _ => .ok none

/-- A service that always succeeds with the given raw text. -/
def svcOkRaw (raw : String) : String → ServiceResponse := fun _ => .ok (some raw)

/-- A state poised to translate: non-empty input, a stale prior translation. -/
def s0 : AppState :=
  ⟨.arabic, .english, .text, sampleText, "stale", false, none, none, false⟩

/-- A state holding a finished translation, ready to copy. -/
def sCopy : AppState :=
  ⟨.arabic, .english, .text, sampleText, "Hello", false, none, none, false⟩

/-- A state with typed input and a prior result, about to select a file. -/
def sPrior : AppState :=
  ⟨.arabic, .english, .file, "draft text", "old result", false, none, none, false⟩

/-- A PDF file over the 100 MB ceiling. -/
def bigFile : FileMeta := ⟨"big.pdf", 104857601, "application/pdf"⟩

/-- A plain-text (non-PDF) file under the ceiling. -/
def textFile : FileMeta := ⟨"notes.txt", 10, "text/plain"⟩

/- Helper lemmas shared by the claim theorems. -/

theorem dropWhile_isSpace_of_all (l : List Char) (h : l.all isSpace = true) :
    l.dropWhile isSpace = [] := by
  induction l with
  | nil => rfl
  | cons c cs ih =>
    simp only [List.all_cons, Bool.and_eq_true] at h
    simp [List.dropWhile, h.1, ih h.2]

theorem jsTrim_of_all_space (s : String) (h : s.data.all isSpace = true) :
    jsTrim s = "" := by
  unfold jsTrim
  rw [dropWhile_isSpace_of_all _ h]
  rfl

theorem translateText_fail_result (service : String → ServiceResponse)
    (text : String) (sl tl : Language) (hne : jsTrim text ≠ "")
    (hfail : ∀ raw : String,
      service (buildPrompt text (langName sl) (langName tl)) ≠ ServiceResponse.ok (some raw)) :
    translateText service text sl tl = ⟨Except.error genericFailureMsg, true⟩ := by
  unfold translateText
  rw [if_neg hne]
  cases hsvc : service (buildPrompt text (langName sl) (langName tl)) with
  | ok t =>
    cases t with
    | none => rfl
    | some raw => exact absurd hsvc (hfail raw)
  | err c => rfl

theorem applyOther_copySuccess (s : AppState) (a : OtherAction) :
    (applyOther s a).copySuccess = s.copySuccess := by
  cases a with
  | translateReq svc =>
    show (handleTranslate svc s).copySuccess = s.copySuccess
    unfold handleTranslate
    split
    · rfl
    · cases (translateText svc s.inputText s.sourceLang s.targetLang).result <;> rfl
  | swapLanguages => rfl
  | editText t => rfl
  | switchMode m => rfl
  | fileSelected f =>
    show ((handleFileChange s f).state).copySuccess = s.copySuccess
    unfold handleFileChange
    split
    · rfl
    · split <;> rfl
  | extraction e => cases e <;> rfl

theorem applyOthers_copySuccess (s : AppState) (acts : List OtherAction) :
    (applyOthers s acts).copySuccess = s.copySuccess := by
  induction acts generalizing s with
  | nil => rfl
  | cons a rest ih =>
    show (applyOthers (applyOther s a) rest).copySuccess = s.copySuccess
    rw [ih, applyOther_copySuccess]

/- Claim theorems. -/

/-- C1: for every input consisting only of whitespace (or empty), translateText
returns an empty string and does not call the generation service. -/
theorem c1_whitespace_short_circuit (service : String → ServiceResponse)
    (text : String) (sourceLang targetLang : Language)
    (h : text.data.all isSpace = true) :
    translateText service text sourceLang targetLang = ⟨Except.ok "", false⟩ := by
  unfold translateText
  rw [jsTrim_of_all_space text h]
  rfl

/-- Witness for C1: the concrete whitespace string short-circuits even with a
service that would fail if called. -/
theorem c1_whitespace_short_circuit_holds :
    wsInput.data.all isSpace = true ∧
    translateText svcNetworkError wsInput Language.arabic Language.english =
      ⟨Except.ok "", false⟩ :=
  ⟨by decide,
   c1_whitespace_short_circuit svcNetworkError wsInput Language.arabic Language.english
     (by decide)⟩

/-- C2: handleSwapLanguages exchanges sourceLang with targetLang and inputText
with translatedText exactly, changes nothing else, and is an involution. -/
theorem c2_swap_exact_involution (s : AppState) :
    (handleSwapLanguages s).sourceLang = s.targetLang ∧
    (handleSwapLanguages s).targetLang = s.sourceLang ∧
    (handleSwapLanguages s).inputText = s.translatedText ∧
    (handleSwapLanguages s).translatedText = s.inputText ∧
    (handleSwapLanguages s).inputMode = s.inputMode ∧
    (handleSwapLanguages s).isLoading = s.isLoading ∧
    (handleSwapLanguages s).error = s.error ∧
    (handleSwapLanguages s).fileName = s.fileName ∧
    (handleSwapLanguages s).copySuccess = s.copySuccess ∧
    handleSwapLanguages (handleSwapLanguages s) = s := by
  refine ⟨rfl, rfl, rfl, rfl, rfl, rfl, rfl, rfl, rfl, ?_⟩
  cases s
  rfl

/-- C3 counterexample: the loop appends a blank-line separator after every
page, the last included, so the pre-trim concatenation of pages A, B, C is not
the claimed three-page join without a trailing separator. -/
theorem c3_concat_counterexample :
    concatPages ["A", "B", "C"] ≠ "A\n\nB\n\nC" := by decide

/-- C3 (amended): the pre-trim concatenation of pages A, B, C carries a
trailing blank-line separator, and only after trimming does it equal the
pages joined with single blank-line separators. -/
theorem c3_concat_trailing_separator :
    concatPages ["A", "B", "C"] = "A\n\nB\n\nC\n\n" ∧
    jsTrim (concatPages ["A", "B", "C"]) = "A\n\nB\n\nC" := by
  refine ⟨rfl, ?_⟩
  decide

/-- C4: with non-empty input, handleTranslate first clears error and the prior
translation and sets isLoading; when the client call fails the final state has
isLoading false, translatedText still the cleared empty string, and the
non-empty generic error message; and isLoading is false on resolution for
every service outcome. -/
theorem c4_translate_failure_state (service : String → ServiceResponse)
    (s : AppState) (hne : jsTrim s.inputText ≠ "")
    (hfail : ∀ raw : String,
      service (buildPrompt s.inputText (langName s.sourceLang) (langName s.targetLang)) ≠
        ServiceResponse.ok (some raw)) :
    (translateStart s).error = none ∧
    (translateStart s).translatedText = "" ∧
    (translateStart s).isLoading = true ∧
    (handleTranslate service s).isLoading = false ∧
    (handleTranslate service s).translatedText = "" ∧
    (handleTranslate service s).error = some genericFailureMsg ∧
    genericFailureMsg ≠ "" ∧
    (∀ anySvc : String → ServiceResponse, (handleTranslate anySvc s).isLoading = false) := by
  have hres := translateText_fail_result service s.inputText s.sourceLang s.targetLang hne hfail
  have hmain : handleTranslate service s =
      { translateStart s with error := some genericFailureMsg, isLoading := false } := by
    unfold handleTranslate
    rw [if_neg hne, hres]
    rfl
  refine ⟨rfl, rfl, rfl, ?_, ?_, ?_, by decide, ?_⟩
  · rw [hmain]
  · rw [hmain]
    rfl
  · rw [hmain]
  · intro anySvc
    unfold handleTranslate
    rw [if_neg hne]
    cases (translateText anySvc s.inputText s.sourceLang s.targetLang).result <;> rfl

/-- Witness for C4: from a state with input and a stale prior translation, the
failing service leaves isLoading false, translatedText cleared and the generic
error set. -/
theorem c4_translate_failure_state_holds :
    (handleTranslate svcNetworkError s0).isLoading = false ∧
    (handleTranslate svcNetworkError s0).translatedText = "" ∧
    (handleTranslate svcNetworkError s0).error = some genericFailureMsg :=
  have h := c4_translate_failure_state svcNetworkError s0 (by decide)
    (fun raw hc => ServiceResponse.noConfusion hc)
  ⟨h.2.2.2.1, h.2.2.2.2.1, h.2.2.2.2.2.1⟩

/-- C5: an oversized or non-PDF file never populates inputText, gets the
matching error message (size first, then type), and starts no read or
extraction, isLoading staying as it was. -/
theorem c5_invalid_file_rejected (s : AppState) (f : FileMeta)
    (h : maxFileSizeBytes < f.size ∨ f.mimeType ≠ pdfMime) :
    (handleFileChange s f).state.inputText = "" ∧
    (handleFileChange s f).readStarted = false ∧
    (maxFileSizeBytes < f.size →
      (handleFileChange s f).state.error = some sizeErrorMsg) ∧
    (f.size ≤ maxFileSizeBytes → f.mimeType ≠ pdfMime →
      (handleFileChange s f).state.error = some typeErrorMsg) ∧
    (handleFileChange s f).state.isLoading = s.isLoading := by
  by_cases hsize : maxFileSizeBytes < f.size
  · unfold handleFileChange
    rw [if_pos hsize]
    exact ⟨rfl, rfl, fun _ => rfl, fun hle _ => absurd hsize (not_lt.mpr hle), rfl⟩
  · have hmime : f.mimeType ≠ pdfMime := h.resolve_left hsize
    unfold handleFileChange
    rw [if_neg hsize, if_pos hmime]
    exact ⟨rfl, rfl, fun hlt => absurd hlt hsize, fun _ _ => rfl, rfl⟩

/-- Witness for C5: the oversized file gets the size error and the non-PDF
file gets the type error, neither populating inputText nor starting a read. -/
theorem c5_invalid_file_rejected_holds :
    (handleFileChange sPrior bigFile).state.inputText = "" ∧
    (handleFileChange sPrior bigFile).state.error = some sizeErrorMsg ∧
    (handleFileChange sPrior textFile).state.error = some typeErrorMsg ∧
    (handleFileChange sPrior textFile).readStarted = false :=
  have hb := c5_invalid_file_rejected sPrior bigFile (Or.inl (by decide))
  have ht := c5_invalid_file_rejected sPrior textFile (Or.inr (by decide))
  ⟨hb.1, hb.2.2.1 (by decide), ht.2.2.2.1 (by decide) (by decide), ht.2.1⟩

/-- C6: whenever the service call fails in any way (thrown error with any
cause, or a response with no text), translateText surfaces the one generic
failure value, identical for all failure causes, never the raw error. -/
theorem c6_uniform_failure_signal (service : String → ServiceResponse)
    (text : String) (sourceLang targetLang : Language)
    (hne : jsTrim text ≠ "")
    (hfail : ∀ raw : String,
      service (buildPrompt text (langName sourceLang) (langName targetLang)) ≠
        ServiceResponse.ok (some raw)) :
    translateText service text sourceLang targetLang =
      ⟨Except.error genericFailureMsg, true⟩ :=
  translateText_fail_result service text sourceLang targetLang hne hfail

/-- Witness for C6: a thrown network error and a missing response text produce
the same generic failure outcome. -/
theorem c6_uniform_failure_signal_holds :
    translateText svcNetworkError sampleText Language.arabic Language.english =
      ⟨Except.error genericFailureMsg, true⟩ ∧
    translateText svcMalformed sampleText Language.arabic Language.english =
      ⟨Except.error genericFailureMsg, true⟩ :=
  ⟨c6_uniform_failure_signal svcNetworkError sampleText Language.arabic Language.english
     (by decide) (fun raw hc => ServiceResponse.noConfusion hc),
   c6_uniform_failure_signal svcMalformed sampleText Language.arabic Language.english
     (by decide) (fun raw hc => by cases hc)⟩

/-- C7: on a successful service call translateText returns exactly the raw
response text trimmed of leading and trailing whitespace, nothing else. -/
theorem c7_success_trimmed (service : String → ServiceResponse)
    (text : String) (sourceLang targetLang : Language) (raw : String)
    (hne : jsTrim text ≠ "")
    (hok : service (buildPrompt text (langName sourceLang) (langName targetLang)) =
      ServiceResponse.ok (some raw)) :
    translateText service text sourceLang targetLang = ⟨Except.ok (jsTrim raw), true⟩ := by
  unfold translateText
  rw [if_neg hne, hok]

/-- Witness for C7: a raw response with surrounding newlines comes back with
them stripped. -/
theorem c7_success_trimmed_holds :
    translateText (svcOkRaw rawWithNewlines) sampleText Language.arabic Language.english =
      ⟨Except.ok "Hello", true⟩ := by
  have h := c7_success_trimmed (svcOkRaw rawWithNewlines) sampleText
    Language.arabic Language.english rawWithNewlines (by decide) rfl
  rw [h]
  rfl

/-- C8: copying with non-empty translatedText sets the feedback flag at once,
writes the text to the clipboard and schedules the revert with the fixed
2000 ms delay; any sequence of other actions, a translate request included,
leaves the flag up, and the timer firing takes it down. -/
theorem c8_copy_feedback (s : AppState) (h : s.translatedText ≠ "") :
    (handleCopy s).state.copySuccess = true ∧
    (handleCopy s).clipboardWrite = some s.translatedText ∧
    (handleCopy s).scheduledRevertMs = some copyTimeoutMs ∧
    copyTimeoutMs = 2000 ∧
    (∀ acts : List OtherAction,
      (applyOthers (handleCopy s).state acts).copySuccess = true) ∧
    (∀ acts : List OtherAction,
      (copyRevert (applyOthers (handleCopy s).state acts)).copySuccess = false) := by
  have hc : handleCopy s =
      ⟨{ s with copySuccess := true }, some s.translatedText, some copyTimeoutMs⟩ := by
    unfold handleCopy
    rw [if_neg h]
  refine ⟨by rw [hc], by rw [hc], by rw [hc], rfl, ?_, ?_⟩
  · intro acts
    rw [hc, applyOthers_copySuccess]
  · intro acts
    rfl

/-- Witness for C8: copying a concrete result raises the flag, schedules the
2000 ms revert, and a concurrent translate request leaves the flag up. -/
theorem c8_copy_feedback_holds :
    (handleCopy sCopy).state.copySuccess = true ∧
    (handleCopy sCopy).scheduledRevertMs = some 2000 ∧
    (applyOthers (handleCopy sCopy).state [OtherAction.translateReq svcNetworkError]).copySuccess
      = true :=
  have h := c8_copy_feedback sCopy (by decide)
  ⟨h.1, by rw [h.2.2.1, h.2.2.2.1], h.2.2.2.2.1 [OtherAction.translateReq svcNetworkError]⟩

/-- C9: selecting any file clears inputText and translatedText before
validation, so a rejected file still erases the prior input and result, with
fileName left cleared and an error set. -/
theorem c9_file_select_clears (s : AppState) (f : FileMeta) :
    (handleFileChange s f).state.inputText = "" ∧
    (handleFileChange s f).state.translatedText = "" ∧
    (maxFileSizeBytes < f.size ∨ f.mimeType ≠ pdfMime →
      (handleFileChange s f).state.fileName = none ∧
      ((handleFileChange s f).state.error).isSome = true) := by
  unfold handleFileChange
  by_cases hsize : maxFileSizeBytes < f.size
  · rw [if_pos hsize]
    exact ⟨rfl, rfl, fun _ => ⟨rfl, rfl⟩⟩
  · by_cases hmime : f.mimeType ≠ pdfMime
    · rw [if_neg hsize, if_pos hmime]
      exact ⟨rfl, rfl, fun _ => ⟨rfl, rfl⟩⟩
    · rw [if_neg hsize, if_neg hmime]
      exact ⟨rfl, rfl, fun hrej => absurd hrej (by simp [hsize, hmime])⟩

/-- Witness for C9: selecting the rejected non-PDF file erases the previously
typed input and the prior translation. -/
theorem c9_file_select_clears_holds :
    sPrior.inputText = "draft text" ∧
    (handleFileChange sPrior textFile).state.inputText = "" ∧
    (handleFileChange sPrior textFile).state.translatedText = "" ∧
    (handleFileChange sPrior textFile).state.fileName = none :=
  have h := c9_file_select_clears sPrior textFile
  ⟨rfl, h.1, h.2.1, (h.2.2 (Or.inr (by decide))).1⟩

/-- C10: a successful extraction sets inputText to the trimmed concatenated
page text and switches inputMode to text as a side effect, whatever the mode
was before. -/
theorem c10_extraction_sets_text_mode (s : AppState) (pages : List String) :
    (handleExtraction s (ExtractionEvent.pagesExtracted pages)).inputText =
      jsTrim (concatPages pages) ∧
    (handleExtraction s (ExtractionEvent.pagesExtracted pages)).inputMode =
      InputMode.text ∧
    (handleExtraction s (ExtractionEvent.pagesExtracted pages)).isLoading = false :=
  ⟨rfl, rfl, rfl⟩

end TranslatorApp
